import Mathlib

/-!
Shallow embedding of `src/prepared_geometry.rs` from the `geos` Rust bindings.

Raw native pointers are modelled as `Nat`, with `0` playing the role of the
null pointer.  The native GEOS engine is an oracle record `Engine` whose
fields stand for the reentrant C entry points used by the file
(`GEOSPrepare_r`, the ten `GEOSPrepared*_r` predicate functions and
`GEOSPreparedGeom_destroy_r`).  `Arc<ContextHandle>` reference counting is
made explicit through a `Heap` that maps cell identifiers to strong counts;
`Arc::clone` bumps a count, dropping an `Arc` decrements it.  Each foreign
call performed by the code is recorded as a `NativeCall` so that theorems can
speak about which context handle was passed and how often destroy ran.
-/

namespace Geos

/-- Raw native pointers; `0` is the null pointer. -/
abbrev Ptr := Nat

/-- The payload of a `ContextHandle<'a>`: the code under verification only
consumes its raw handle accessor (`as_raw`), so the handle is modelled by
that raw pointer.  Notice/error handlers live outside this core. -/
structure ContextHandle where
  raw : Ptr
deriving DecidableEq, Repr

/-- The `ContextHandle.as_raw` accessor. -/
def ContextHandle.as_raw (c : ContextHandle) : Ptr := c.raw

/-- A shared reference `Arc<ContextHandle>`: the identifier of its
reference-counted cell together with the (immutable) value it points to. -/
structure Arc where
  cell : Nat
  val : ContextHandle
deriving DecidableEq, Repr

/-- The reference-count heap backing all `Arc` cells: the next fresh cell
identifier, and each cell's strong count (`0` = not allocated / freed). -/
@[ext]
structure Heap where
  next : Nat
  counts : Nat → Nat

/-- Increment the strong count of a cell (effect of `Arc::clone`). -/
def Heap.bump (h : Heap) (c : Nat) : Heap :=
  { h with counts := fun k => if k = c then h.counts k + 1 else h.counts k }

/-- Decrement the strong count of a cell (effect of dropping an `Arc`); the
cell's payload is destroyed exactly when the count reaches `0`. -/
def Heap.decr (h : Heap) (c : Nat) : Heap :=
  { h with counts := fun k => if k = c then h.counts k - 1 else h.counts k }

/-- `Arc::new`: allocate a fresh cell with strong count `1`. -/
def Heap.allocArc (h : Heap) (v : ContextHandle) : Arc × Heap :=
  ({ cell := h.next, val := v }, { next := h.next + 1, counts := (h.bump h.next).counts })

/-- `Arc::clone`: a new reference to the same cell, count incremented. -/
def Heap.cloneArc (h : Heap) (a : Arc) : Arc × Heap :=
  (a, h.bump a.cell)

/-- Dropping an `Arc` reference. -/
def Heap.dropArc (h : Heap) (a : Arc) : Heap :=
  h.decr a.cell

/-- A record of one foreign call into the native engine: the C function's
name, the raw context handle passed first, and the raw resource handles. -/
structure NativeCall where
  name : String
  ctx : Ptr
  args : List Ptr
deriving DecidableEq, Repr

/-- Invoke a native tri-state predicate entry point, recording the call. -/
def invoke (name : String) (f : Ptr → Ptr → Ptr → Int) (ctx a b : Ptr) :
    Int × NativeCall :=
  (f ctx a b, { name := name, ctx := ctx, args := [a, b] })

/-- The native GEOS engine, as an oracle: one field per reentrant entry
point used by `prepared_geometry.rs`.  Predicate entry points take the raw
context, the prepared-geometry handle and the second geometry's handle, and
return the tri-state code. -/
structure Engine where
  GEOSPrepare_r : Ptr → Ptr → Ptr
  GEOSPreparedContains_r : Ptr → Ptr → Ptr → Int
  GEOSPreparedContainsProperly_r : Ptr → Ptr → Ptr → Int
  GEOSPreparedCoveredBy_r : Ptr → Ptr → Ptr → Int
  GEOSPreparedCovers_r : Ptr → Ptr → Ptr → Int
  GEOSPreparedCrosses_r : Ptr → Ptr → Ptr → Int
  GEOSPreparedDisjoint_r : Ptr → Ptr → Ptr → Int
  GEOSPreparedIntersects_r : Ptr → Ptr → Ptr → Int
  GEOSPreparedOverlaps_r : Ptr → Ptr → Ptr → Int
  GEOSPreparedTouches_r : Ptr → Ptr → Ptr → Int
  GEOSPreparedWithin_r : Ptr → Ptr → Ptr → Int

/-- The tags of the ten prepared-geometry predicates (`PredicateType` in
`error.rs`; only the `Prepared*` variants are used by this file). -/
inductive PredicateType
  | PreparedContains
  | PreparedContainsProperly
  | PreparedCoveredBy
  | PreparedCovers
  | PreparedCrosses
  | PreparedDisjoint
  | PreparedIntersects
  | PreparedOverlaps
  | PreparedTouches
  | PreparedWithin
deriving DecidableEq, Repr

/-- The error taxonomy visible from `prepared_geometry.rs`:
`Error::NoConstructionFromNullPtr` carries the failing constructor's name;
`Error.PredicateFailure` is the predicate-failure kind carrying which of the
ten predicates was being evaluated. -/
inductive Error
  | NoConstructionFromNullPtr (who : String)
  | PredicateFailure (kind : PredicateType)
deriving DecidableEq, Repr

/-- `GResult<T>` from the crate: `Result<T, Error>`. -/
abbrev GResult (α : Type) := Except Error α

/-- Modelled from the spec: `check_geos_predicate` lives in `functions.rs`,
which is not under src/ (only its callers in `prepared_geometry.rs` are).
Per the spec's external-interface section, the native tri-state code is
`2` = exceptional, `1` = affirmative, `0` = negative, and any other value is
treated as an error-equivalent; the error is tagged with which of the ten
predicates was being evaluated. -/
def check_geos_predicate (val : Int) (p : PredicateType) : GResult Bool :=
  if val = 1 then Except.ok true
  else if val = 0 then Except.ok false
  else Except.error (Error.PredicateFailure p)

/-- The external collaborator `Geometry<'a>`: the core only consumes its raw
handle and its shared context reference. -/
structure Geometry where
  ptr : Ptr
  context : Arc
deriving DecidableEq, Repr

/-- `Geometry`'s `as_raw`. -/
def Geometry.as_raw (g : Geometry) : Ptr := g.ptr

/-- `Geometry`'s `get_raw_context` (the held context's raw handle). -/
def Geometry.get_raw_context (g : Geometry) : Ptr := g.context.val.as_raw

/-- `Geometry`'s `clone_context`: `Arc::clone(&self.context)`. -/
def Geometry.clone_context (g : Geometry) (h : Heap) : Arc × Heap :=
  h.cloneArc g.context

/-- `PreparedGeometry<'a>`: the opaque prepared-geometry handle (`PtrWrap`)
plus a shared `Arc<ContextHandle>` reference. -/
structure PreparedGeometry where
  ptr : Ptr
  context : Arc
deriving DecidableEq, Repr

namespace PreparedGeometry

/-- `AsRaw for PreparedGeometry`: `*self.ptr`. -/
def as_raw (pg : PreparedGeometry) : Ptr := pg.ptr

/-- `ContextHandling::get_raw_context`: `self.context.as_raw()`. -/
def get_raw_context (pg : PreparedGeometry) : Ptr := pg.context.val.as_raw

/-- `ContextHandling::clone_context`: `Arc::clone(&self.context)`. -/
def clone_context (pg : PreparedGeometry) (h : Heap) : Arc × Heap :=
  h.cloneArc pg.context

/-- `PreparedGeometry::new_from_raw`: a null pointer yields
`Error::NoConstructionFromNullPtr("PreparedGeometry::" ++ caller)` — on that
early return Rust drops the `Arc` argument, which the embedding makes
explicit with `Heap.dropArc`; otherwise the pointer and the context are
wrapped into the object. -/
def new_from_raw (ptr : Ptr) (context : Arc) (caller : String) (h : Heap) :
    GResult PreparedGeometry × Heap :=
  if ptr = 0 then
    (Except.error (Error.NoConstructionFromNullPtr ("PreparedGeometry::" ++ caller)),
     h.dropArc context)
  else
    (Except.ok { ptr := ptr, context := context }, h)

/-- `PreparedGeometry::new`: `GEOSPrepare_r(g.get_raw_context(), g.as_raw())`
followed by `new_from_raw(ptr, g.clone_context(), "new")`. -/
def new (e : Engine) (g : Geometry) (h : Heap) :
    GResult PreparedGeometry × Heap :=
  let ptr := e.GEOSPrepare_r g.get_raw_context g.as_raw
  let cloned := g.clone_context h
  new_from_raw ptr cloned.1 ("new") cloned.2

/-- `PreparedGeometry::contains`. -/
def contains (e : Engine) (pg : PreparedGeometry) (g2 : Geometry) :
    GResult Bool × NativeCall :=
  let r := invoke ("GEOSPreparedContains_r") e.GEOSPreparedContains_r
    pg.get_raw_context pg.as_raw g2.as_raw
  (check_geos_predicate r.1 PredicateType.PreparedContains, r.2)

/-- `PreparedGeometry::contains_properly`. -/
def contains_properly (e : Engine) (pg : PreparedGeometry) (g2 : Geometry) :
    GResult Bool × NativeCall :=
  let r := invoke ("GEOSPreparedContainsProperly_r") e.GEOSPreparedContainsProperly_r
    pg.get_raw_context pg.as_raw g2.as_raw
  (check_geos_predicate r.1 PredicateType.PreparedContainsProperly, r.2)

/-- `PreparedGeometry::covered_by`. -/
def covered_by (e : Engine) (pg : PreparedGeometry) (g2 : Geometry) :
    GResult Bool × NativeCall :=
  let r := invoke ("GEOSPreparedCoveredBy_r") e.GEOSPreparedCoveredBy_r
    pg.get_raw_context pg.as_raw g2.as_raw
  (check_geos_predicate r.1 PredicateType.PreparedCoveredBy, r.2)

/-- `PreparedGeometry::covers`. -/
def covers (e : Engine) (pg : PreparedGeometry) (g2 : Geometry) :
    GResult Bool × NativeCall :=
  let r := invoke ("GEOSPreparedCovers_r") e.GEOSPreparedCovers_r
    pg.get_raw_context pg.as_raw g2.as_raw
  (check_geos_predicate r.1 PredicateType.PreparedCovers, r.2)

/-- `PreparedGeometry::crosses`. -/
def crosses (e : Engine) (pg : PreparedGeometry) (g2 : Geometry) :
    GResult Bool × NativeCall :=
  let r := invoke ("GEOSPreparedCrosses_r") e.GEOSPreparedCrosses_r
    pg.get_raw_context pg.as_raw g2.as_raw
  (check_geos_predicate r.1 PredicateType.PreparedCrosses, r.2)

/-- `PreparedGeometry::disjoint`. -/
def disjoint (e : Engine) (pg : PreparedGeometry) (g2 : Geometry) :
    GResult Bool × NativeCall :=
  let r := invoke ("GEOSPreparedDisjoint_r") e.GEOSPreparedDisjoint_r
    pg.get_raw_context pg.as_raw g2.as_raw
  (check_geos_predicate r.1 PredicateType.PreparedDisjoint, r.2)

/-- `PreparedGeometry::intersects`. -/
def intersects (e : Engine) (pg : PreparedGeometry) (g2 : Geometry) :
    GResult Bool × NativeCall :=
  let r := invoke ("GEOSPreparedIntersects_r") e.GEOSPreparedIntersects_r
    pg.get_raw_context pg.as_raw g2.as_raw
  (check_geos_predicate r.1 PredicateType.PreparedIntersects, r.2)

/-- `PreparedGeometry::overlaps`. -/
def overlaps (e : Engine) (pg : PreparedGeometry) (g2 : Geometry) :
    GResult Bool × NativeCall :=
  let r := invoke ("GEOSPreparedOverlaps_r") e.GEOSPreparedOverlaps_r
    pg.get_raw_context pg.as_raw g2.as_raw
  (check_geos_predicate r.1 PredicateType.PreparedOverlaps, r.2)

/-- `PreparedGeometry::touches`. -/
def touches (e : Engine) (pg : PreparedGeometry) (g2 : Geometry) :
    GResult Bool × NativeCall :=
  let r := invoke ("GEOSPreparedTouches_r") e.GEOSPreparedTouches_r
    pg.get_raw_context pg.as_raw g2.as_raw
  (check_geos_predicate r.1 PredicateType.PreparedTouches, r.2)

/-- `PreparedGeometry::within`. -/
def within (e : Engine) (pg : PreparedGeometry) (g2 : Geometry) :
    GResult Bool × NativeCall :=
  let r := invoke ("GEOSPreparedWithin_r") e.GEOSPreparedWithin_r
    pg.get_raw_context pg.as_raw g2.as_raw
  (check_geos_predicate r.1 PredicateType.PreparedWithin, r.2)

/-- Dispatch table from a predicate tag to the corresponding operation of
`PreparedGeometry`; used to quantify over all ten predicates at once. -/
def runPredicate (e : Engine) (p : PredicateType) (pg : PreparedGeometry)
    (g2 : Geometry) : GResult Bool × NativeCall :=
  match p with
  | PredicateType.PreparedContains => contains e pg g2
  | PredicateType.PreparedContainsProperly => contains_properly e pg g2
  | PredicateType.PreparedCoveredBy => covered_by e pg g2
  | PredicateType.PreparedCovers => covers e pg g2
  | PredicateType.PreparedCrosses => crosses e pg g2
  | PredicateType.PreparedDisjoint => disjoint e pg g2
  | PredicateType.PreparedIntersects => intersects e pg g2
  | PredicateType.PreparedOverlaps => overlaps e pg g2
  | PredicateType.PreparedTouches => touches e pg g2
  | PredicateType.PreparedWithin => within e pg g2

/-- `ContextInteractions::set_context_handle`: `self.context = Arc::new(context)`
— the replacement handle is taken by value and wrapped in a fresh `Arc`, and
the previously held `Arc` reference is dropped by the assignment. -/
def set_context_handle (pg : PreparedGeometry) (context : ContextHandle)
    (h : Heap) : PreparedGeometry × Heap :=
  let fresh := h.allocArc context
  ({ pg with context := fresh.1 }, fresh.2.dropArc pg.context)

/-- `ContextInteractions::get_context_handle`: `&self.context`. -/
def get_context_handle (pg : PreparedGeometry) : ContextHandle :=
  pg.context.val

/-- `Drop for PreparedGeometry`:
`GEOSPreparedGeom_destroy_r(self.get_raw_context(), self.as_raw())`, then the
struct's `Arc<ContextHandle>` field is released.  Returns the recorded
destroy call and the heap after the context reference is dropped. -/
def drop (pg : PreparedGeometry) (h : Heap) : NativeCall × Heap :=
  ({ name := "GEOSPreparedGeom_destroy_r", ctx := pg.get_raw_context,
     args := [pg.as_raw] },
   h.dropArc pg.context)

end PreparedGeometry

/-- The engine entry point a given predicate tag dispatches to. -/
def Engine.predFn (e : Engine) (p : PredicateType) : Ptr → Ptr → Ptr → Int :=
  match p with
  | PredicateType.PreparedContains => e.GEOSPreparedContains_r
  | PredicateType.PreparedContainsProperly => e.GEOSPreparedContainsProperly_r
  | PredicateType.PreparedCoveredBy => e.GEOSPreparedCoveredBy_r
  | PredicateType.PreparedCovers => e.GEOSPreparedCovers_r
  | PredicateType.PreparedCrosses => e.GEOSPreparedCrosses_r
  | PredicateType.PreparedDisjoint => e.GEOSPreparedDisjoint_r
  | PredicateType.PreparedIntersects => e.GEOSPreparedIntersects_r
  | PredicateType.PreparedOverlaps => e.GEOSPreparedOverlaps_r
  | PredicateType.PreparedTouches => e.GEOSPreparedTouches_r
  | PredicateType.PreparedWithin => e.GEOSPreparedWithin_r

/-- One observable event in a prepared object's lifetime: a foreign call
into the engine, or the release of one shared context reference. -/
inductive Event
  | call (c : NativeCall)
  | releaseContext (cell : Nat)
deriving DecidableEq, Repr

/-- A client-side operation on a live `PreparedGeometry`: evaluate one of
the ten predicates against the geometry at index `i` of the ambient store,
or replace the context handle. -/
inductive Op
  | pred (p : PredicateType) (i : Nat)
  | setContext (c : ContextHandle)
deriving Repr

/-- The state of one prepared object between its construction and its drop:
the object itself, the `Arc` heap, the ambient store of second geometries a
client may test against, and the trace of events so far. -/
structure PGState where
  pg : PreparedGeometry
  heap : Heap
  geoms : List Geometry
  trace : List Event

/-- Small-step semantics of one client operation.  A predicate call only
appends the recorded foreign call to the trace (the object, the heap and the
geometry store are untouched, whether the call succeeds or fails); a context
replacement runs `set_context_handle` and records the release of the old
shared reference. -/
def step (e : Engine) (s : PGState) : Op → PGState
  | Op.pred p i =>
      let g2 := s.geoms.getD i { ptr := 0, context := { cell := 0, val := { raw := 0 } } }
      let r := PreparedGeometry.runPredicate e p s.pg g2
      { s with trace := s.trace ++ [Event.call r.2] }
  | Op.setContext c =>
      let old := s.pg.context
      let r := s.pg.set_context_handle c s.heap
      { s with pg := r.1, heap := r.2,
               trace := s.trace ++ [Event.releaseContext old.cell] }

/-- Run a list of client operations in order. -/
def run (e : Engine) (s : PGState) : List Op → PGState
  | [] => s
  | op :: ops => run e (step e s op) ops

/-- The whole lifetime of a prepared object: construct it from `g`, run the
client's operations, and—when construction succeeded—drop it when the scope
ends, which records the destroy call and then releases the held context
reference.  Returns the event trace and the final heap. -/
def lifecycle (e : Engine) (g : Geometry) (geoms : List Geometry)
    (ops : List Op) (h : Heap) : List Event × Heap :=
  match PreparedGeometry.new e g h with
  | (Except.error _, h1) => ([], h1)
  | (Except.ok pg, h1) =>
      let s := run e { pg := pg, heap := h1, geoms := geoms, trace := [] } ops
      let d := s.pg.drop s.heap
      (s.trace ++ [Event.call d.1, Event.releaseContext s.pg.context.cell], d.2)

/-- Whether an event is an invocation of the native destroy entry point. -/
def Event.isDestroy : Event → Bool
  | Event.call c => c.name = "GEOSPreparedGeom_destroy_r"
  | Event.releaseContext _ => false

/-- The C entry point's name for each predicate tag. -/
def predName : PredicateType → String
  | PredicateType.PreparedContains => "GEOSPreparedContains_r"
  | PredicateType.PreparedContainsProperly => "GEOSPreparedContainsProperly_r"
  | PredicateType.PreparedCoveredBy => "GEOSPreparedCoveredBy_r"
  | PredicateType.PreparedCovers => "GEOSPreparedCovers_r"
  | PredicateType.PreparedCrosses => "GEOSPreparedCrosses_r"
  | PredicateType.PreparedDisjoint => "GEOSPreparedDisjoint_r"
  | PredicateType.PreparedIntersects => "GEOSPreparedIntersects_r"
  | PredicateType.PreparedOverlaps => "GEOSPreparedOverlaps_r"
  | PredicateType.PreparedTouches => "GEOSPreparedTouches_r"
  | PredicateType.PreparedWithin => "GEOSPreparedWithin_r"

/-- Each of the ten predicate operations is the uniform pattern from the
source file: invoke the dispatched native entry point on
`(self.get_raw_context(), self.as_raw(), g2.as_raw())` and feed the
tri-state code to `check_geos_predicate` with the matching tag. -/
theorem runPredicate_eq (e : Engine) (p : PredicateType)
    (pg : PreparedGeometry) (g2 : Geometry) :
    PreparedGeometry.runPredicate e p pg g2 =
      (check_geos_predicate (e.predFn p pg.get_raw_context pg.as_raw g2.as_raw) p,
       { name := predName p, ctx := pg.get_raw_context,
         args := [pg.as_raw, g2.as_raw] }) := by
  cases p <;> rfl

/-- No predicate entry point is the destroy entry point. -/
theorem predName_ne_destroy (p : PredicateType) :
    predName p ≠ "GEOSPreparedGeom_destroy_r" := by
  cases p <;> decide

/-- One client step never changes the native prepared-geometry handle. -/
theorem step_ptr (e : Engine) (s : PGState) (op : Op) :
    (step e s op).pg.ptr = s.pg.ptr := by
  cases op <;> rfl

/-- A run of client steps never changes the native handle. -/
theorem run_ptr (e : Engine) (ops : List Op) (s : PGState) :
    (run e s ops).pg.ptr = s.pg.ptr := by
  induction ops generalizing s with
  | nil => rfl
  | cons op ops ih => rw [run, ih, step_ptr]

/-- One client step only appends events, none of which is a destroy. -/
theorem step_trace (e : Engine) (s : PGState) (op : Op) :
    ∃ extra, (step e s op).trace = s.trace ++ extra ∧
      ∀ ev ∈ extra, ev.isDestroy = false := by
  cases op with
  | pred p i =>
      refine ⟨[Event.call (PreparedGeometry.runPredicate e p s.pg
        (s.geoms.getD i { ptr := 0, context := { cell := 0, val := { raw := 0 } } })).2],
        rfl, ?_⟩
      intro ev hev
      simp only [List.mem_singleton] at hev
      subst hev
      simp only [Event.isDestroy, runPredicate_eq, decide_eq_false_iff_not]
      exact predName_ne_destroy p
  | setContext c =>
      exact ⟨[Event.releaseContext s.pg.context.cell], rfl, by
        intro ev hev
        simp only [List.mem_singleton] at hev
        subst hev
        rfl⟩

/-- A run of client steps only appends events, none of which is a destroy. -/
theorem run_trace (e : Engine) (ops : List Op) (s : PGState) :
    ∃ extra, (run e s ops).trace = s.trace ++ extra ∧
      ∀ ev ∈ extra, ev.isDestroy = false := by
  induction ops generalizing s with
  | nil => exact ⟨[], by simp [run]⟩
  | cons op ops ih =>
      obtain ⟨e1, he1, hd1⟩ := step_trace e s op
      obtain ⟨e2, he2, hd2⟩ := ih (step e s op)
      refine ⟨e1 ++ e2, ?_, ?_⟩
      · rw [run, he2, he1, List.append_assoc]
      · intro ev hev
        rcases List.mem_append.1 hev with h1 | h2
        · exact hd1 ev h1
        · exact hd2 ev h2

/-- A concrete execution context used to instantiate theorems. -/
def sampleContext : ContextHandle := { raw := 5 }

/-- A concrete shared context reference (cell `0`). -/
def sampleArc : Arc := { cell := 0, val := sampleContext }

/-- A concrete heap: cell `0` is live with strong count `2` (held by a
geometry and one other owner), cell `1` is the next fresh cell. -/
def sampleHeap : Heap := { next := 1, counts := fun k => if k = 0 then 2 else 0 }

/-- A concrete source geometry sharing `sampleArc`. -/
def sampleGeom : Geometry := { ptr := 10, context := sampleArc }

/-- A concrete second geometry with its own distinct context. -/
def sampleGeom2 : Geometry :=
  { ptr := 11, context := { cell := 3, val := { raw := 8 } } }

/-- A concrete engine: `prepare` yields handle `30`; the predicate entry
points return a mix of affirmative (`1`), negative (`0`), exceptional (`2`)
and out-of-convention (`7`) codes, so every translation branch is hit. -/
def sampleEngine : Engine where
  GEOSPrepare_r := fun _ _ => 30
  GEOSPreparedContains_r := fun _ _ _ => 1
  GEOSPreparedContainsProperly_r := fun _ _ _ => 7
  GEOSPreparedCoveredBy_r := fun _ _ _ => 1
  GEOSPreparedCovers_r := fun _ _ _ => 2
  GEOSPreparedCrosses_r := fun _ _ _ => 0
  GEOSPreparedDisjoint_r := fun _ _ _ => 0
  GEOSPreparedIntersects_r := fun _ _ _ => 1
  GEOSPreparedOverlaps_r := fun _ _ _ => 0
  GEOSPreparedTouches_r := fun _ _ _ => 0
  GEOSPreparedWithin_r := fun _ _ _ => 1

/-- The engine with a failing `prepare` (returns the null handle). -/
def nullEngine : Engine := { sampleEngine with GEOSPrepare_r := fun _ _ => 0 }

/-- The prepared object `sampleEngine` produces from `sampleGeom`. -/
def samplePG : PreparedGeometry := { ptr := 30, context := sampleArc }

/-- Cloning an `Arc` and then dropping the clone restores the heap. -/
theorem dropArc_bump (h : Heap) (a : Arc) : (h.bump a.cell).dropArc a = h := by
  refine Heap.ext rfl ?_
  funext k
  by_cases hk : k = a.cell <;>
    simp [Heap.bump, Heap.dropArc, Heap.decr, hk]

/-- When the native prepare call returns the null handle, `new` returns the
tagged construction error and the heap is exactly restored (the context
reference cloned for the construction is released again). -/
theorem new_eq_null (e : Engine) (g : Geometry) (h : Heap)
    (hp : e.GEOSPrepare_r g.get_raw_context g.as_raw = 0) :
    PreparedGeometry.new e g h =
      (Except.error (Error.NoConstructionFromNullPtr ("PreparedGeometry::new")), h) := by
  simp only [PreparedGeometry.new, Geometry.clone_context, Heap.cloneArc,
    PreparedGeometry.new_from_raw, hp, if_true]
  rw [Prod.mk.injEq]
  exact ⟨rfl, dropArc_bump h g.context⟩

/-- When the native prepare call returns a non-null handle, `new` returns an
object holding exactly that handle and the cloned context reference, and
the source context's strong count is bumped by one. -/
theorem new_eq_ok (e : Engine) (g : Geometry) (h : Heap)
    (hp : e.GEOSPrepare_r g.get_raw_context g.as_raw ≠ 0) :
    PreparedGeometry.new e g h =
      (Except.ok { ptr := e.GEOSPrepare_r g.get_raw_context g.as_raw,
                   context := g.context },
       h.bump g.context.cell) := by
  simp only [PreparedGeometry.new, Geometry.clone_context, Heap.cloneArc,
    PreparedGeometry.new_from_raw, hp, if_false, if_neg hp]

/-- C1: construction through `PreparedGeometry::new` / `new_from_raw` either
fails on a null native handle with `NoConstructionFromNullPtr` naming the
constructor (`"PreparedGeometry::new"`), producing no object and releasing
the cloned context reference (final heap = initial heap, no leak), or
succeeds with an object holding exactly the returned handle and the held
context. -/
theorem construction_null_error_or_exact_object (e : Engine) (g : Geometry) (h : Heap) :
    (e.GEOSPrepare_r g.get_raw_context g.as_raw = 0 →
      PreparedGeometry.new e g h =
        (Except.error (Error.NoConstructionFromNullPtr ("PreparedGeometry::new")), h)) ∧
    (e.GEOSPrepare_r g.get_raw_context g.as_raw ≠ 0 →
      PreparedGeometry.new e g h =
        (Except.ok { ptr := e.GEOSPrepare_r g.get_raw_context g.as_raw,
                     context := g.context },
         h.bump g.context.cell)) :=
  ⟨new_eq_null e g h, new_eq_ok e g h⟩

/-- Witness for C1 at concrete inputs: the failing-prepare engine yields the
named error with the heap unchanged, and the succeeding engine yields the
object with handle `30` and the source's context. -/
theorem construction_null_error_or_exact_object_witness :
    PreparedGeometry.new nullEngine sampleGeom sampleHeap =
      (Except.error (Error.NoConstructionFromNullPtr ("PreparedGeometry::new")),
       sampleHeap) ∧
    PreparedGeometry.new sampleEngine sampleGeom sampleHeap =
      (Except.ok { ptr := 30, context := sampleGeom.context },
       sampleHeap.bump sampleGeom.context.cell) :=
  ⟨(construction_null_error_or_exact_object nullEngine sampleGeom sampleHeap).1 rfl,
   (construction_null_error_or_exact_object sampleEngine sampleGeom sampleHeap).2
     (by decide)⟩

/-- C4: on every successful construction the prepared object's held context
is the cloned shared reference to the source geometry's context — the same
reference-counted cell, whose strong count is incremented by one, so the
prepared object holds an independent reference rather than a borrow. -/
theorem construction_shares_source_context (e : Engine) (g : Geometry) (h : Heap)
    (pg : PreparedGeometry) (h1 : Heap)
    (hok : PreparedGeometry.new e g h = (Except.ok pg, h1)) :
    pg.context = g.context ∧ h1 = h.bump g.context.cell ∧
    h1.counts g.context.cell = h.counts g.context.cell + 1 := by
  by_cases hp : e.GEOSPrepare_r g.get_raw_context g.as_raw = 0
  · rw [new_eq_null e g h hp] at hok
    simp at hok
  · rw [new_eq_ok e g h hp] at hok
    rw [Prod.mk.injEq] at hok
    obtain ⟨hpg, hh⟩ := hok
    injection hpg with hpg
    refine ⟨by rw [← hpg], hh.symm, ?_⟩
    rw [← hh]
    simp [Heap.bump]

/-- Witness for C4 at concrete inputs. -/
theorem construction_shares_source_context_witness :
    samplePG.context = sampleGeom.context ∧
    sampleHeap.bump sampleGeom.context.cell = sampleHeap.bump sampleGeom.context.cell ∧
    (sampleHeap.bump sampleGeom.context.cell).counts sampleGeom.context.cell =
      sampleHeap.counts sampleGeom.context.cell + 1 :=
  construction_shares_source_context sampleEngine sampleGeom sampleHeap samplePG
    (sampleHeap.bump sampleGeom.context.cell) rfl

/-- C2: for each of the ten predicate operations the native tri-state code
is translated uniformly: `1` yields `Ok(true)`, `0` yields `Ok(false)`, `2`
yields the predicate failure tagged with the predicate being evaluated, and
any other code is likewise treated as that tagged error. -/
theorem predicate_tristate_translation (e : Engine) (p : PredicateType)
    (pg : PreparedGeometry) (g2 : Geometry) :
    (e.predFn p pg.get_raw_context pg.as_raw g2.as_raw = 1 →
      (PreparedGeometry.runPredicate e p pg g2).1 = Except.ok true) ∧
    (e.predFn p pg.get_raw_context pg.as_raw g2.as_raw = 0 →
      (PreparedGeometry.runPredicate e p pg g2).1 = Except.ok false) ∧
    (e.predFn p pg.get_raw_context pg.as_raw g2.as_raw = 2 →
      (PreparedGeometry.runPredicate e p pg g2).1 =
        Except.error (Error.PredicateFailure p)) ∧
    (e.predFn p pg.get_raw_context pg.as_raw g2.as_raw ≠ 1 →
      e.predFn p pg.get_raw_context pg.as_raw g2.as_raw ≠ 0 →
      (PreparedGeometry.runPredicate e p pg g2).1 =
        Except.error (Error.PredicateFailure p)) := by
  refine ⟨fun hv => ?_, fun hv => ?_, fun hv => ?_, fun hv1 hv0 => ?_⟩ <;>
    rw [runPredicate_eq]
  · simp only [check_geos_predicate, hv]
    norm_num
  · simp only [check_geos_predicate, hv]
    norm_num
  · simp only [check_geos_predicate, hv]
    norm_num
  · simp only [check_geos_predicate]
    rw [if_neg hv1, if_neg hv0]

/-- Witness for C2: each translation branch at a concrete engine whose
entry points return `1`, `0`, `2` and `7` respectively. -/
theorem predicate_tristate_translation_witness :
    (PreparedGeometry.runPredicate sampleEngine PredicateType.PreparedContains
      samplePG sampleGeom2).1 = Except.ok true ∧
    (PreparedGeometry.runPredicate sampleEngine PredicateType.PreparedDisjoint
      samplePG sampleGeom2).1 = Except.ok false ∧
    (PreparedGeometry.runPredicate sampleEngine PredicateType.PreparedCovers
      samplePG sampleGeom2).1 =
        Except.error (Error.PredicateFailure PredicateType.PreparedCovers) ∧
    (PreparedGeometry.runPredicate sampleEngine PredicateType.PreparedContainsProperly
      samplePG sampleGeom2).1 =
        Except.error (Error.PredicateFailure PredicateType.PreparedContainsProperly) :=
  ⟨(predicate_tristate_translation sampleEngine PredicateType.PreparedContains
      samplePG sampleGeom2).1 rfl,
   (predicate_tristate_translation sampleEngine PredicateType.PreparedDisjoint
      samplePG sampleGeom2).2.1 rfl,
   (predicate_tristate_translation sampleEngine PredicateType.PreparedCovers
      samplePG sampleGeom2).2.2.1 rfl,
   (predicate_tristate_translation sampleEngine PredicateType.PreparedContainsProperly
      samplePG sampleGeom2).2.2.2 (by decide) (by decide)⟩

/-- C3: every one of the ten predicate operations passes the prepared
object's own held raw context to the native call — never the second
geometry's context. -/
theorem predicate_uses_own_context (e : Engine) (p : PredicateType)
    (pg : PreparedGeometry) (g2 : Geometry) :
    (PreparedGeometry.runPredicate e p pg g2).2.ctx = pg.get_raw_context := by
  rw [runPredicate_eq]

/-- C8: a predicate step mutates nothing: the prepared object, the heap of
shared context references and the store of geometries are all unchanged,
whatever tri-state code (including an error) the engine returns. -/
theorem predicate_no_mutation (e : Engine) (s : PGState) (p : PredicateType)
    (i : Nat) :
    (step e s (Op.pred p i)).pg = s.pg ∧
    (step e s (Op.pred p i)).heap = s.heap ∧
    (step e s (Op.pred p i)).geoms = s.geoms :=
  ⟨rfl, rfl, rfl⟩

/-- C9: whenever the engine reports the complementary pair expected of
valid geometries (disjoint affirmative with intersects negative, or the
other way round), the two wrapper results are logical negations:
`disjoint` is `Ok(true)` exactly when `intersects` is `Ok(false)`, and
`Ok(false)` exactly when `intersects` is `Ok(true)`. -/
theorem disjoint_iff_not_intersects (e : Engine) (pg : PreparedGeometry)
    (g2 : Geometry)
    (hvalid :
      (e.GEOSPreparedDisjoint_r pg.get_raw_context pg.as_raw g2.as_raw = 1 ∧
       e.GEOSPreparedIntersects_r pg.get_raw_context pg.as_raw g2.as_raw = 0) ∨
      (e.GEOSPreparedDisjoint_r pg.get_raw_context pg.as_raw g2.as_raw = 0 ∧
       e.GEOSPreparedIntersects_r pg.get_raw_context pg.as_raw g2.as_raw = 1)) :
    ((PreparedGeometry.disjoint e pg g2).1 = Except.ok true ↔
     (PreparedGeometry.intersects e pg g2).1 = Except.ok false) ∧
    ((PreparedGeometry.disjoint e pg g2).1 = Except.ok false ↔
     (PreparedGeometry.intersects e pg g2).1 = Except.ok true) := by
  rcases hvalid with ⟨hd, hi⟩ | ⟨hd, hi⟩ <;>
    simp [PreparedGeometry.disjoint, PreparedGeometry.intersects, invoke,
      check_geos_predicate, hd, hi]

/-- Witness for C9 at a concrete engine reporting disjoint = `0`,
intersects = `1`. -/
theorem disjoint_iff_not_intersects_witness :
    ((PreparedGeometry.disjoint sampleEngine samplePG sampleGeom2).1 =
       Except.ok true ↔
     (PreparedGeometry.intersects sampleEngine samplePG sampleGeom2).1 =
       Except.ok false) ∧
    ((PreparedGeometry.disjoint sampleEngine samplePG sampleGeom2).1 =
       Except.ok false ↔
     (PreparedGeometry.intersects sampleEngine samplePG sampleGeom2).1 =
       Except.ok true) :=
  disjoint_iff_not_intersects sampleEngine samplePG sampleGeom2
    (Or.inr ⟨rfl, rfl⟩)

/-- C5: a successfully constructed prepared object has a non-null handle;
the handle is never changed by any later client operation (predicates or
context replacement), nullness is checked only at construction — no
predicate ever reports the null-construction error, and destruction uses
the handle unconditionally, without re-checking it. -/
theorem handle_nonnull_never_rechecked (e : Engine) (g : Geometry) (h : Heap)
    (pg : PreparedGeometry) (h1 : Heap)
    (hok : PreparedGeometry.new e g h = (Except.ok pg, h1)) :
    pg.ptr ≠ 0 ∧
    (∀ geoms ops,
      (run e { pg := pg, heap := h1, geoms := geoms, trace := [] } ops).pg.ptr =
        pg.ptr) ∧
    (∀ p g2 who, (PreparedGeometry.runPredicate e p pg g2).1 ≠
      Except.error (Error.NoConstructionFromNullPtr who)) ∧
    (∀ (q : PreparedGeometry) (hh : Heap),
      (PreparedGeometry.drop q hh).1 =
        { name := "GEOSPreparedGeom_destroy_r", ctx := q.get_raw_context,
          args := [q.as_raw] }) := by
  refine ⟨?_, ?_, ?_, ?_⟩
  · by_cases hp : e.GEOSPrepare_r g.get_raw_context g.as_raw = 0
    · rw [new_eq_null e g h hp] at hok
      simp at hok
    · rw [new_eq_ok e g h hp] at hok
      rw [Prod.mk.injEq] at hok
      injection hok.1 with hpg
      rw [← hpg]
      exact hp
  · intro geoms ops
    exact run_ptr e ops _
  · intro p g2 who
    rw [runPredicate_eq]
    simp only [check_geos_predicate]
    split_ifs <;> simp
  · intro q hh
    rfl

/-- Witness for C5 at concrete inputs: the constructed handle `30` is
non-null and survives a run of client operations. -/
theorem handle_nonnull_never_rechecked_witness :
    samplePG.ptr ≠ 0 ∧
    (run sampleEngine
      { pg := samplePG, heap := sampleHeap.bump sampleGeom.context.cell,
        geoms := [sampleGeom2], trace := [] }
      [Op.pred PredicateType.PreparedContains 0,
       Op.setContext { raw := 9 }]).pg.ptr = samplePG.ptr :=
  ⟨(handle_nonnull_never_rechecked sampleEngine sampleGeom sampleHeap samplePG
      (sampleHeap.bump sampleGeom.context.cell) rfl).1,
   (handle_nonnull_never_rechecked sampleEngine sampleGeom sampleHeap samplePG
      (sampleHeap.bump sampleGeom.context.cell) rfl).2.1 [sampleGeom2]
     [Op.pred PredicateType.PreparedContains 0, Op.setContext { raw := 9 }]⟩

/-- C6: `set_context_handle` releases the previously held shared context
reference (its strong count drops by one), stores the replacement, and
leaves every other field unchanged: the native handle is not modified, and
the step emits no foreign call at all (in particular no destroy and no
revalidation), only the release of the old reference. -/
theorem replace_context_frame (pg : PreparedGeometry) (c : ContextHandle)
    (h : Heap) (hwf : pg.context.cell < h.next) :
    (pg.set_context_handle c h).1.ptr = pg.ptr ∧
    (pg.set_context_handle c h).1.context.val = c ∧
    (pg.set_context_handle c h).2.counts pg.context.cell =
      h.counts pg.context.cell - 1 ∧
    (∀ (e : Engine) (s : PGState), (step e s (Op.setContext c)).trace =
      s.trace ++ [Event.releaseContext s.pg.context.cell]) := by
  refine ⟨rfl, rfl, ?_, fun e s => rfl⟩
  have hne : pg.context.cell ≠ h.next := Nat.ne_of_lt hwf
  simp [PreparedGeometry.set_context_handle, Heap.allocArc, Heap.dropArc,
    Heap.decr, Heap.bump, hne]

/-- Witness for C6 at concrete inputs. -/
theorem replace_context_frame_witness :
    (samplePG.set_context_handle { raw := 9 } sampleHeap).1.ptr = samplePG.ptr ∧
    (samplePG.set_context_handle { raw := 9 } sampleHeap).2.counts
        samplePG.context.cell =
      sampleHeap.counts samplePG.context.cell - 1 :=
  ⟨(replace_context_frame samplePG { raw := 9 } sampleHeap (by decide)).1,
   (replace_context_frame samplePG { raw := 9 } sampleHeap (by decide)).2.2.1⟩

/-- C10: the replacement context is wrapped in a freshly allocated shared
reference whose strong count is exactly one — the prepared object is its
sole holder, and the fresh cell differs from every previously allocated
cell, so replacement can never make two objects share a context; by
contrast, construction shares the source geometry's context cell. -/
theorem replace_context_sole_holder (pg : PreparedGeometry) (c : ContextHandle)
    (h : Heap) (hwf : pg.context.cell < h.next) (hfresh : h.counts h.next = 0) :
    (pg.set_context_handle c h).1.context.cell = h.next ∧
    (pg.set_context_handle c h).2.counts
      (pg.set_context_handle c h).1.context.cell = 1 ∧
    (∀ cell0, cell0 < h.next →
      (pg.set_context_handle c h).1.context.cell ≠ cell0) ∧
    (∀ (e : Engine) (g : Geometry) (hh : Heap) (pg2 : PreparedGeometry)
      (h2 : Heap), PreparedGeometry.new e g hh = (Except.ok pg2, h2) →
      pg2.context.cell = g.context.cell) := by
  refine ⟨rfl, ?_, ?_, ?_⟩
  · have hne : h.next ≠ pg.context.cell := (Nat.ne_of_lt hwf).symm
    simp [PreparedGeometry.set_context_handle, Heap.allocArc, Heap.dropArc,
      Heap.decr, Heap.bump, hne, hfresh]
  · intro cell0 hc0
    exact (Nat.ne_of_lt hc0).symm
  · intro e g hh pg2 h2 hok
    by_cases hp : e.GEOSPrepare_r g.get_raw_context g.as_raw = 0
    · rw [new_eq_null e g hh hp] at hok
      simp at hok
    · rw [new_eq_ok e g hh hp] at hok
      rw [Prod.mk.injEq] at hok
      injection hok.1 with hpg
      rw [← hpg]

/-- Witness for C10 at concrete inputs: after replacement the held cell is
the fresh cell `1`, with strong count exactly one, distinct from the old
cell. -/
theorem replace_context_sole_holder_witness :
    (samplePG.set_context_handle { raw := 9 } sampleHeap).1.context.cell =
      sampleHeap.next ∧
    (samplePG.set_context_handle { raw := 9 } sampleHeap).2.counts
      (samplePG.set_context_handle { raw := 9 } sampleHeap).1.context.cell = 1 ∧
    (samplePG.set_context_handle { raw := 9 } sampleHeap).1.context.cell ≠
      samplePG.context.cell :=
  ⟨(replace_context_sole_holder samplePG { raw := 9 } sampleHeap (by decide)
      (by decide)).1,
   (replace_context_sole_holder samplePG { raw := 9 } sampleHeap (by decide)
      (by decide)).2.1,
   (replace_context_sole_holder samplePG { raw := 9 } sampleHeap (by decide)
      (by decide)).2.2.1 samplePG.context.cell (by decide)⟩

/-- C7: over the whole lifetime of a successfully constructed prepared
object — construction, any sequence of client operations (predicate calls,
including failing ones, and context replacements), then scope end — the
native destroy entry point is invoked exactly once, as the last foreign
call, on the object's own raw handle and its own raw context, and the held
shared context reference is released only after that destroy call.  The
drop path is a total function: it cannot panic. -/
theorem destroy_exactly_once_at_scope_end (e : Engine) (g : Geometry)
    (geoms : List Geometry) (ops : List Op) (h : Heap)
    (pg : PreparedGeometry) (h1 : Heap)
    (hok : PreparedGeometry.new e g h = (Except.ok pg, h1)) :
    ∃ pre pgf,
      (lifecycle e g geoms ops h).1 =
        pre ++ [Event.call { name := "GEOSPreparedGeom_destroy_r",
                             ctx := PreparedGeometry.get_raw_context pgf,
                             args := [PreparedGeometry.as_raw pgf] },
                Event.releaseContext pgf.context.cell] ∧
      (∀ ev ∈ pre, ev.isDestroy = false) ∧
      ((lifecycle e g geoms ops h).1.filter Event.isDestroy).length = 1 ∧
      PreparedGeometry.as_raw pgf = PreparedGeometry.as_raw pg := by
  set s0 : PGState := { pg := pg, heap := h1, geoms := geoms, trace := [] }
    with hs0
  have hl : lifecycle e g geoms ops h =
      ((run e s0 ops).trace ++
        [Event.call { name := "GEOSPreparedGeom_destroy_r",
                      ctx := (run e s0 ops).pg.get_raw_context,
                      args := [(run e s0 ops).pg.as_raw] },
         Event.releaseContext (run e s0 ops).pg.context.cell],
       ((run e s0 ops).pg.drop (run e s0 ops).heap).2) := by
    rw [hs0]
    unfold lifecycle
    rw [hok]
    rfl
  obtain ⟨extra, hextra, hdfree⟩ := run_trace e ops s0
  have htrfree : ∀ ev ∈ (run e s0 ops).trace, ev.isDestroy = false := by
    intro ev hev
    rw [hextra] at hev
    rw [hs0] at hev
    rw [List.nil_append] at hev
    exact hdfree ev hev
  refine ⟨(run e s0 ops).trace, (run e s0 ops).pg, ?_, htrfree, ?_, ?_⟩
  · rw [hl]
  · rw [hl]
    have hnil : (run e s0 ops).trace.filter Event.isDestroy = [] :=
      List.filter_eq_nil_iff.2 (fun ev hev => by simp [htrfree ev hev])
    rw [List.filter_append, hnil, List.nil_append]
    simp [Event.isDestroy, List.filter]
  · exact run_ptr e ops s0

/-- Witness for C7 at concrete inputs: a lifecycle with one predicate call
and one context replacement before scope end. -/
theorem destroy_exactly_once_at_scope_end_witness :
    ∃ pre pgf,
      (lifecycle sampleEngine sampleGeom [sampleGeom2]
        [Op.pred PredicateType.PreparedContains 0, Op.setContext { raw := 9 }]
        sampleHeap).1 =
        pre ++ [Event.call { name := "GEOSPreparedGeom_destroy_r",
                             ctx := PreparedGeometry.get_raw_context pgf,
                             args := [PreparedGeometry.as_raw pgf] },
                Event.releaseContext pgf.context.cell] ∧
      (∀ ev ∈ pre, ev.isDestroy = false) ∧
      ((lifecycle sampleEngine sampleGeom [sampleGeom2]
        [Op.pred PredicateType.PreparedContains 0, Op.setContext { raw := 9 }]
        sampleHeap).1.filter Event.isDestroy).length = 1 ∧
      PreparedGeometry.as_raw pgf = PreparedGeometry.as_raw samplePG :=
  destroy_exactly_once_at_scope_end sampleEngine sampleGeom [sampleGeom2]
    [Op.pred PredicateType.PreparedContains 0, Op.setContext { raw := 9 }]
    sampleHeap samplePG (sampleHeap.bump sampleGeom.context.cell) rfl

end Geos
